import Mathlib

/-!
Verification of the NeuroGate behavioral risk engine.

The definitions below are a shallow embedding of the decision logic of the
repository:

* `go-backend/main.go` — the risk scorer (`CalculateRisk`), its helpers
  (`calculateVariance`, `calculateMouseAcceleration`), the HTTP handlers
  (`VerifyBehaviorHandler`, `SubmitChallengeHandler`) and the bounded audit
  log (`EventLog`).
* `src/components/GravityChallenge.tsx` — the physics classifier
  (`analyzePhysics`, `measureLinearity` and friends).
* `src/components/DynamicLoginGate.tsx` — the OTP-challenge client logic
  (`handleChallengeSubmit`).

Floating-point values of the source (`float64` in Go, `number` in
TypeScript) are embedded as rational numbers; `math.Sqrt` / `Math.sqrt`
is embedded as `Rat.sqrt`, which agrees with the real square root on
squares of rationals (every concrete input used below only takes square
roots of perfect squares, where the two agree exactly).
-/

namespace NeuroGate

/-- A single mouse movement event (`MousePoint`, main.go lines 18-23).
The optional `pressure` field is never read by the risk engine and is
omitted. -/
structure MousePoint where
  x : ℚ
  y : ℚ
  time : ℤ
deriving DecidableEq

/-- Keystroke timing features (`KeystrokeDynamics`, main.go lines 26-30). -/
structure KeystrokeDynamics where
  flightTimes : List ℚ
  dwellTimes : List ℚ
  keys : List String
deriving DecidableEq

/-- The telemetry payload (`TelemetryData`, main.go lines 53-59). -/
structure TelemetryData where
  keystrokeDynamics : KeystrokeDynamics
  mousePath : List MousePoint
  entropyScore : ℚ
  sessionDuration : ℤ
  timestamp : ℤ
deriving DecidableEq

/-- `calculateVariance` (main.go lines 213-234): population variance,
`0` for fewer than two samples. -/
def calculateVariance (data : List ℚ) : ℚ :=
  if data.length < 2 then 0
  else
    let mean := data.foldl (· + ·) 0 / (data.length : ℚ)
    data.foldl (fun acc val => acc + (val - mean) * (val - mean)) 0 / (data.length : ℚ)

/-- All windows of three consecutive elements of a list, in order; this is
the index loop `for i := 2; i < len(mousePath); i++` of
`calculateMouseAcceleration` (main.go line 245) viewed positionally. -/
def triples {α : Type} : List α → List (α × α × α)
  | a :: b :: c :: rest => (a, b, c) :: triples (b :: c :: rest)
  | _ => []

/-- One iteration of the loop body of `calculateMouseAcceleration`
(main.go lines 245-270): seconds-based velocity vectors of two consecutive
steps, magnitude of their difference; `none` when either time delta is
zero (the `continue` branch). -/
def accelMagnitude (point1 point2 point3 : MousePoint) : Option ℚ :=
  let timeDelta1 : ℚ := ((point2.time - point1.time : ℤ) : ℚ) / 1000
  let timeDelta2 : ℚ := ((point3.time - point2.time : ℤ) : ℚ) / 1000
  if timeDelta1 = 0 ∨ timeDelta2 = 0 then none
  else
    let vel1X := (point2.x - point1.x) / timeDelta1
    let vel1Y := (point2.y - point1.y) / timeDelta1
    let vel2X := (point3.x - point2.x) / timeDelta2
    let vel2Y := (point3.y - point2.y) / timeDelta2
    let accelX := vel2X - vel1X
    let accelY := vel2Y - vel1Y
    some (Rat.sqrt (accelX * accelX + accelY * accelY))

/-- `calculateMouseAcceleration` (main.go lines 237-274): variance of the
acceleration magnitudes over the mouse path. -/
def calculateMouseAcceleration (mousePath : List MousePoint) : ℚ :=
  if mousePath.length < 3 then 0
  else
    let accelerations :=
      (triples mousePath).filterMap fun t => accelMagnitude t.1 t.2.1 t.2.2
    calculateVariance accelerations

/-- The sequential trust-score accumulation of `CalculateRisk`
(main.go lines 107-196), before the final clamp. -/
def riskAccum (telemetry : TelemetryData) : ℚ :=
  let trustScore : ℚ := 50
  -- entropy score analysis (lines 112-121)
  let trustScore :=
    if telemetry.entropyScore < 40 then trustScore - 35
    else if telemetry.entropyScore > 70 then trustScore + 25
    else trustScore + 5
  -- keystroke flight-time analysis (lines 125-137)
  let trustScore :=
    if telemetry.keystrokeDynamics.flightTimes.length > 2 then
      let flightVariance := calculateVariance telemetry.keystrokeDynamics.flightTimes
      if flightVariance < 100 then trustScore - 30
      else if flightVariance > 1000 then trustScore + 15
      else trustScore
    else trustScore
  -- dwell-time analysis (lines 140-149)
  let trustScore :=
    if telemetry.keystrokeDynamics.dwellTimes.length > 2 then
      let dwellVariance := calculateVariance telemetry.keystrokeDynamics.dwellTimes
      if dwellVariance < 50 then trustScore - 15 else trustScore
    else trustScore
  -- session duration analysis (lines 153-159)
  let trustScore :=
    if telemetry.sessionDuration < 2000 then trustScore - 20
    else if telemetry.sessionDuration > 300000 then trustScore - 10
    else trustScore
  -- mouse movement analysis (lines 163-175)
  let trustScore :=
    if telemetry.mousePath.length > 10 then
      let acceleration := calculateMouseAcceleration telemetry.mousePath
      if acceleration < 1 then trustScore - 25
      else if acceleration > 50 then trustScore + 10
      else trustScore
    else trustScore
  -- keystroke count analysis (lines 179-185); the `> 50` branch only logs
  let trustScore :=
    if telemetry.keystrokeDynamics.keys.length < 3 then trustScore - 15
    else trustScore
  -- mouse movement count analysis (lines 189-196)
  let trustScore :=
    if telemetry.mousePath.length < 5 then trustScore - 10
    else if telemetry.mousePath.length > 100 then trustScore + 5
    else trustScore
  trustScore

/-- The final clamp of `CalculateRisk` (main.go lines 200-204). -/
def clampScore (trustScore : ℚ) : ℚ :=
  if trustScore > 100 then 100 else if trustScore < 0 then 0 else trustScore

/-- `CalculateRisk` (main.go lines 103-210): trust score in 0-100. -/
def CalculateRisk (telemetry : TelemetryData) : ℚ :=
  clampScore (riskAccum telemetry)

/-! ### Specification-side form of the risk scorer

The following adjustment functions transcribe the fixed table of the
specification (one independent additive adjustment per behavioral factor);
they are written from the table and compared against `CalculateRisk`. -/

/-- Table row: entropy below 40 / 40-70 / above 70 gives -35 / +5 / +25. -/
def entropyAdj (t : TelemetryData) : ℚ :=
  if t.entropyScore < 40 then -35 else if t.entropyScore > 70 then 25 else 5

/-- Table row: flight-time variance (at least 3 samples) below 100 gives
-30, above 1000 gives +15. -/
def flightAdj (t : TelemetryData) : ℚ :=
  if t.keystrokeDynamics.flightTimes.length > 2 then
    if calculateVariance t.keystrokeDynamics.flightTimes < 100 then -30
    else if calculateVariance t.keystrokeDynamics.flightTimes > 1000 then 15
    else 0
  else 0

/-- Table row: dwell-time variance (at least 3 samples) below 50 gives -15. -/
def dwellAdj (t : TelemetryData) : ℚ :=
  if t.keystrokeDynamics.dwellTimes.length > 2 then
    if calculateVariance t.keystrokeDynamics.dwellTimes < 50 then -15 else 0
  else 0

/-- Table row: session shorter than 2000 ms gives -20, longer than
300000 ms gives -10. -/
def durationAdj (t : TelemetryData) : ℚ :=
  if t.sessionDuration < 2000 then -20
  else if t.sessionDuration > 300000 then -10
  else 0

/-- Table row: pointer acceleration variance (more than 10 samples) below
1.0 gives -25, above 50 gives +10. -/
def mouseAccelAdj (t : TelemetryData) : ℚ :=
  if t.mousePath.length > 10 then
    if calculateMouseAcceleration t.mousePath < 1 then -25
    else if calculateMouseAcceleration t.mousePath > 50 then 10
    else 0
  else 0

/-- Table row: fewer than 3 keystrokes gives -15. -/
def keyCountAdj (t : TelemetryData) : ℚ :=
  if t.keystrokeDynamics.keys.length < 3 then -15 else 0

/-- Table row: fewer than 5 pointer samples gives -10, more than 100
gives +5. -/
def mouseCountAdj (t : TelemetryData) : ℚ :=
  if t.mousePath.length < 5 then -10
  else if t.mousePath.length > 100 then 5
  else 0

/-- Sum of all table adjustments onto the baseline of 50. -/
def riskSpecTotal (t : TelemetryData) : ℚ :=
  50 + entropyAdj t + flightAdj t + dwellAdj t + durationAdj t +
    mouseAccelAdj t + keyCountAdj t + mouseCountAdj t

/-! ### Audit log and HTTP handlers (go-backend/main.go) -/

/-- A login attempt in the event log (`SecurityEvent`, main.go lines 33-41). -/
structure SecurityEvent where
  id : String
  timestamp : ℤ
  userId : String
  ip : String
  trustScore : ℚ
  status : String
  time : String
deriving DecidableEq

/-- The in-memory security event log (`EventLog`, main.go lines 44-48).
The mutex serializes access in Go; sequential state passing models the
same serialized mutation order here. -/
structure EventLog where
  events : List SecurityEvent
  maxSize : ℕ
deriving DecidableEq

/-- `NewEventLog` (main.go lines 391-396). -/
def NewEventLog (maxSize : ℕ) : EventLog :=
  { events := [], maxSize := maxSize }

/-- `EventLog.LogEvent` (main.go lines 399-411): append, then keep only
the last `maxSize` events. -/
def EventLog.LogEvent (el : EventLog) (event : SecurityEvent) : EventLog :=
  let events := el.events ++ [event]
  { el with
    events :=
      if events.length > el.maxSize then
        events.drop (events.length - el.maxSize)
      else events }

/-- `EventLog.GetEvents` (main.go lines 414-424): snapshot copy in reverse
order (most recent first). -/
def EventLog.GetEvents (el : EventLog) : List SecurityEvent :=
  el.events.reverse

/-- The verify response (`RiskResponse`, main.go lines 69-72). -/
structure RiskResponse where
  trustScore : ℚ
  requiresChallenge : Bool
deriving DecidableEq

/-- The verify request (`VerifyRequest`, main.go lines 62-66). -/
structure VerifyRequest where
  userId : String
  telemetry : TelemetryData
  timestamp : ℤ
deriving DecidableEq

/-- An OTP challenge submission (`ChallengeRequest`, main.go lines 75-79). -/
structure ChallengeRequest where
  userId : String
  success : Bool
  timestamp : ℤ
deriving DecidableEq

/-- The challenge response (`ChallengeResponse`, main.go lines 82-85). -/
structure ChallengeResponse where
  status : String
  message : String
deriving DecidableEq

/-- The fixed challenge threshold (main.go line 309). -/
def CHALLENGE_THRESHOLD : ℚ := 70

/-- `VerifyBehaviorHandler` (main.go lines 288-335) on a well-formed
request: scores the telemetry, logs exactly one security event (status
`challenged` when a challenge is required, `success` otherwise) and
returns the risk response.  The wall-clock readings (`time.Now().Unix()`,
`time.Now().UnixNano()`, the formatted time string) and the client IP are
environment inputs and are passed as parameters. -/
def VerifyBehaviorHandler (el : EventLog) (req : VerifyRequest)
    (nowUnix nowNano : ℤ) (clientIP nowFormatted : String) :
    EventLog × RiskResponse :=
  let trustScore := CalculateRisk req.telemetry
  let requiresChallenge := decide (trustScore < CHALLENGE_THRESHOLD)
  let status := if requiresChallenge then "challenged" else "success"
  let el :=
    el.LogEvent
      { id := req.userId ++ "-" ++ toString nowNano
        timestamp := nowUnix
        userId := req.userId
        ip := clientIP
        trustScore := trustScore
        status := status
        time := nowFormatted }
  (el, { trustScore := trustScore, requiresChallenge := requiresChallenge })

/-- `SubmitChallengeHandler` (main.go lines 338-376) on a well-formed
request: accepts exactly when the client-supplied `success` flag is true.
It never touches the event log. -/
def SubmitChallengeHandler (el : EventLog) (req : ChallengeRequest) :
    EventLog × ChallengeResponse :=
  let response :=
    if req.success then
      ChallengeResponse.mk "accepted" "Challenge verified successfully"
    else
      ChallengeResponse.mk "rejected" "Challenge verification failed"
  (el, response)

/-- JavaScript `String.prototype.trim`: remove whitespace from both ends
of the string. -/
def trimEnds (s : String) : String :=
  ⟨(((s.data.dropWhile Char.isWhitespace).reverse.dropWhile
      Char.isWhitespace).reverse)⟩

/-- `handleChallengeSubmit` of `DynamicLoginGate.tsx` (lines 106-145),
reduced to the challenge submission it makes: `none` when validation
fails locally (empty trimmed OTP, or length below 4), otherwise the
`success` flag sent to the backend — which is always `true`. -/
def handleChallengeSubmit (otp : String) : Option Bool :=
  if trimEnds otp = "" then none
  else if otp.length < 4 then none
  else some true

/-! ### Physics classifier (src/components/GravityChallenge.tsx) -/

/-- A movement sample (`MovementPoint`, GravityChallenge.tsx lines 5-9). -/
structure MovementPoint where
  timestamp : ℚ
  x : ℚ
  y : ℚ
deriving DecidableEq

/-- The physics verdict (`PhysicsAnalysis`, lines 11-17). -/
structure PhysicsAnalysis where
  isHuman : Bool
  confidence : ℚ
  reasons : List String
  velocities : List ℚ
  accelerations : List ℚ
deriving DecidableEq

/-- `MIN_MOVEMENT_TIME` (line 27). -/
def MIN_MOVEMENT_TIME : ℚ := 50

/-- `VELOCITY_THRESHOLD` (line 28). -/
def VELOCITY_THRESHOLD : ℚ := 500

/-- `LINEARITY_THRESHOLD` (line 29). -/
def LINEARITY_THRESHOLD : ℚ := 0.95

/-- `MIN_SAMPLES` (line 30). -/
def MIN_SAMPLES : ℕ := 15

/-- `distance` (lines 40-44). -/
def distance (p1 p2 : MovementPoint) : ℚ :=
  let dx := p2.x - p1.x
  let dy := p2.y - p1.y
  Rat.sqrt (dx * dx + dy * dy)

/-- `calculateVelocity` (lines 49-54) combined with the `isFinite` filter
of its only caller (line 141): `none` stands for the `Infinity` produced
by a zero time difference, which the caller discards. -/
def calculateVelocity? (p1 p2 : MovementPoint) : Option ℚ :=
  let timeDiff := p2.timestamp - p1.timestamp
  if timeDiff = 0 then none
  else some (distance p1 p2 / timeDiff)

/-- All windows of two consecutive elements of a list, in order (the
index loops `for i := 1; i < len; i++`). -/
def pairs {α : Type} : List α → List (α × α)
  | a :: b :: rest => (a, b) :: pairs (b :: rest)
  | _ => []

/-- The finite per-step velocities of a trace (lines 138-142). -/
def velocities (points : List MovementPoint) : List ℚ :=
  (pairs points).filterMap fun p => calculateVelocity? p.1 p.2

/-- `calculateAccelerations` (lines 59-66): absolute changes between
consecutive velocities. -/
def calculateAccelerations (vels : List ℚ) : List ℚ :=
  (pairs vels).map fun p => |p.2 - p.1|

/-- `measureLinearity` (lines 72-102): R-squared-style fit of the x
positions against the sample index along the first-to-last straight
line, clamped to the unit interval; 1 when all x are equal. -/
def measureLinearity (points : List MovementPoint) : ℚ :=
  if points.length < 3 then 0
  else
    let relPoints := points.enum.map fun ip => ((ip.1 : ℚ), ip.2.x)
    let len : ℚ := points.length
    let meanT := relPoints.foldl (fun s p => s + p.1) 0 / len
    let meanX := relPoints.foldl (fun s p => s + p.2) 0 / len
    let slope := (relPoints.getLastD (0, 0)).2 - (relPoints.headD (0, 0)).2
    let ssRes := relPoints.foldl
      (fun s p =>
        s + (p.2 - (meanX + (p.1 - meanT) / (len - 1) * slope)) *
          (p.2 - (meanX + (p.1 - meanT) / (len - 1) * slope))) 0
    let ssTot := relPoints.foldl (fun s p => s + (p.2 - meanX) * (p.2 - meanX)) 0
    if ssTot = 0 then 1
    else max 0 (min 1 (1 - ssRes / ssTot))

/-- Check 1 of `analyzePhysics` (lines 121-135): the time gap between the
first two samples. -/
def instantStep (confidence : ℚ) (reasons : List String)
    (points : List MovementPoint) : ℚ × List String :=
  let fallback : MovementPoint := { timestamp := 0, x := 0, y := 0 }
  let timeDiff := (points.getD 1 fallback).timestamp -
    (points.getD 0 fallback).timestamp
  if timeDiff = 0 then
    (confidence - 0.3,
      reasons ++ ["Instant movement detected (0ms gap) - BOT signature"])
  else if timeDiff < MIN_MOVEMENT_TIME then
    (confidence - 0.2, reasons ++ ["Suspiciously fast initial movement"])
  else
    (confidence + 0.1, reasons ++ ["Natural movement onset"])

/-- Check 2 of `analyzePhysics` (lines 137-153): the maximum finite
velocity.  `Math.max()` of an empty spread is negative infinity, below
the threshold, so the empty case takes the natural branch. -/
def velocityStep (confidence : ℚ) (reasons : List String)
    (vels : List ℚ) : ℚ × List String :=
  match vels.max? with
  | some m =>
    if m > VELOCITY_THRESHOLD then
      (confidence - 0.25, reasons ++ ["Suspiciously high velocity"])
    else
      (confidence + 0.1, reasons ++ ["Natural velocity range"])
  | none => (confidence + 0.1, reasons ++ ["Natural velocity range"])

/-- Check 3 of `analyzePhysics` (lines 155-167): linearity. -/
def linearityStep (confidence : ℚ) (reasons : List String)
    (points : List MovementPoint) : ℚ × List String :=
  let linearity := measureLinearity points
  if linearity > LINEARITY_THRESHOLD then
    (confidence - 0.3, reasons ++ ["Movement too linear - constant velocity detected"])
  else if linearity > 0.7 then
    (confidence - 0.1, reasons ++ ["Somewhat linear movement"])
  else
    (confidence + 0.2, reasons ++ ["Natural acceleration variations"])

/-- Check 4 of `analyzePhysics` (lines 169-188): population standard
deviation of the accelerations, no adjustment when there are none. -/
def accelStep (confidence : ℚ) (reasons : List String)
    (accelerations : List ℚ) : ℚ × List String :=
  if accelerations.length > 0 then
    let avgAccel :=
      accelerations.foldl (· + ·) 0 / (accelerations.length : ℚ)
    let accelVariance :=
      accelerations.foldl (fun s a => s + (a - avgAccel) * (a - avgAccel)) 0 /
        (accelerations.length : ℚ)
    let accelStdDev := Rat.sqrt accelVariance
    if accelStdDev > 0.05 then
      (confidence + 0.2, reasons ++ ["Natural acceleration noise detected"])
    else if accelStdDev > 0.01 then
      (confidence + 0.1, reasons ++ ["Some acceleration variation"])
    else
      (confidence - 0.15, reasons ++ ["Suspiciously smooth acceleration"])
  else (confidence, reasons)

/-- The direction-change test of check 5 (lines 194-213) for one
consecutive triple: both displacement vectors are non-degenerate and
their normalized dot product is below 0.95. -/
def directionChanged (t : MovementPoint × MovementPoint × MovementPoint) : Bool :=
  let v1x := t.2.1.x - t.1.x
  let v1y := t.2.1.y - t.1.y
  let v2x := t.2.2.x - t.2.1.x
  let v2y := t.2.2.y - t.2.1.y
  let len1 := Rat.sqrt (v1x * v1x + v1y * v1y)
  let len2 := Rat.sqrt (v2x * v2x + v2y * v2y)
  decide (len1 > 0 ∧ len2 > 0 ∧ (v1x * v2x + v1y * v2y) / (len1 * len2) < 0.95)

/-- Check 5 of `analyzePhysics` (lines 190-218): count of direction
changes over the interior samples, bonus when above 20 percent of the
sample count. -/
def directionStep (confidence : ℚ) (reasons : List String)
    (points : List MovementPoint) : ℚ × List String :=
  let directionChanges := (triples points).countP directionChanged
  if (directionChanges : ℚ) > (points.length : ℚ) * 0.2 then
    (confidence + 0.15, reasons ++ ["Natural direction adjustments detected"])
  else (confidence, reasons)

/-- `analyzePhysics` (lines 107-239).  The numeric interpolations inside
the human-readable reason strings (`toFixed` formatting) are elided; the
reason count and evaluation order match the source. -/
def analyzePhysics (points : List MovementPoint) : PhysicsAnalysis :=
  if points.length < MIN_SAMPLES then
    { isHuman := false
      confidence := 0
      reasons := ["Insufficient movement samples: " ++
        toString points.length ++ "/" ++ toString MIN_SAMPLES]
      velocities := []
      accelerations := [] }
  else
    let confidence : ℚ := 0.5
    let s1 := instantStep confidence [] points
    let vels := velocities points
    let s2 := velocityStep s1.1 s1.2 vels
    let s3 := linearityStep s2.1 s2.2 points
    let accelerations := calculateAccelerations vels
    let s4 := accelStep s3.1 s3.2 accelerations
    let s5 := directionStep s4.1 s4.2 points
    let isHuman := decide (s5.1 > 0.4)
    let reasons := s5.2 ++ [if isHuman then "HUMAN DETECTED" else "BOT SUSPECTED"]
    let finalConfidence := max 0 (min 1 s5.1)
    { isHuman := isHuman
      confidence := finalConfidence
      reasons := reasons
      velocities := vels
      accelerations := accelerations }

/-! ### Specification-side form of the physics classifier

Adjustment functions transcribing the five checks as the specification
states them, compared against `analyzePhysics`. -/

/-- First-gap adjustment: exactly 0 ms gives -0.3, under 50 ms gives
-0.2, otherwise +0.1. -/
def instantAdj (points : List MovementPoint) : ℚ :=
  let fallback : MovementPoint := { timestamp := 0, x := 0, y := 0 }
  let timeDiff := (points.getD 1 fallback).timestamp -
    (points.getD 0 fallback).timestamp
  if timeDiff = 0 then -0.3
  else if timeDiff < MIN_MOVEMENT_TIME then -0.2
  else 0.1

/-- Velocity adjustment: maximum finite per-step velocity over 500 gives
-0.25, otherwise +0.1. -/
def velocityAdj (vels : List ℚ) : ℚ :=
  match vels.max? with
  | some m => if m > VELOCITY_THRESHOLD then -0.25 else 0.1
  | none => 0.1

/-- Linearity adjustment: over 0.95 gives -0.3, over 0.7 gives -0.1,
otherwise +0.2. -/
def linearityAdj (points : List MovementPoint) : ℚ :=
  if measureLinearity points > LINEARITY_THRESHOLD then -0.3
  else if measureLinearity points > 0.7 then -0.1
  else 0.2

/-- Acceleration adjustment: standard deviation over 0.05 gives +0.2,
over 0.01 gives +0.1, otherwise -0.15; no adjustment when no
accelerations exist. -/
def accelAdj (accelerations : List ℚ) : ℚ :=
  if accelerations.length > 0 then
    let avgAccel :=
      accelerations.foldl (· + ·) 0 / (accelerations.length : ℚ)
    let accelVariance :=
      accelerations.foldl (fun s a => s + (a - avgAccel) * (a - avgAccel)) 0 /
        (accelerations.length : ℚ)
    if Rat.sqrt accelVariance > 0.05 then 0.2
    else if Rat.sqrt accelVariance > 0.01 then 0.1
    else -0.15
  else 0

/-- Direction-change adjustment: a change count above 20 percent of the
sample count gives +0.15. -/
def directionAdj (points : List MovementPoint) : ℚ :=
  if (((triples points).countP directionChanged : ℕ) : ℚ) >
      (points.length : ℚ) * 0.2 then 0.15
  else 0

/-! ### Concrete inputs used as witnesses and counterexamples -/

/-- Replaying a sequence of `record` operations on a fresh audit log of
capacity 50. -/
def replay (es : List SecurityEvent) : EventLog :=
  es.foldl EventLog.LogEvent (NewEventLog 50)

/-- A distinguishable sample event for the audit-log witness. -/
def sampleEvent (i : ℕ) : SecurityEvent :=
  { id := toString i, timestamp := i, userId := "user", ip := "127.0.0.1"
    trustScore := 50, status := "success", time := "now" }

/-- 51 record operations, one more than the capacity. -/
def manyEvents : List SecurityEvent :=
  (List.range 51).map sampleEvent

/-- A mouse sample at the origin at time 0. -/
def stillPoint : MousePoint :=
  { x := 0, y := 0, time := 0 }

/-- Four mouse samples with one-second gaps jumping between x = 0 and
x = 100. -/
def spikeTail : List MousePoint :=
  [ { x := 0, y := 0, time := 1000 }, { x := 100, y := 0, time := 2000 },
    { x := 0, y := 0, time := 3000 }, { x := 100, y := 0, time := 4000 } ]

/-- A telemetry snapshot matching the literal scenario-A premises
(entropy 85, three flight times with variance well above 1000, session
8500 ms, 150 pointer samples) in which the factors the scenario leaves
unconstrained all take their penalty branches: no keystrokes and a
perfectly still 150-sample mouse path (acceleration variance 0). -/
def scenarioStill : TelemetryData :=
  { keystrokeDynamics :=
      { flightTimes := [0, 1000, 2000], dwellTimes := [], keys := [] }
    mousePath := List.replicate 150 stillPoint
    entropyScore := 85
    sessionDuration := 8500
    timestamp := 0 }

/-- A 20-sample movement trace along the straight line y = 0, x = t,
traversed at constant velocity (1, 0) px/ms, with non-zero but unequal
time gaps: 50 ms first, then 1 ms steps, then a 10000 ms pause. -/
def lineTrace : List MovementPoint :=
  [ { timestamp := 0, x := 0, y := 0 }, { timestamp := 50, x := 50, y := 0 },
    { timestamp := 51, x := 51, y := 0 }, { timestamp := 52, x := 52, y := 0 },
    { timestamp := 53, x := 53, y := 0 }, { timestamp := 54, x := 54, y := 0 },
    { timestamp := 55, x := 55, y := 0 }, { timestamp := 56, x := 56, y := 0 },
    { timestamp := 57, x := 57, y := 0 }, { timestamp := 58, x := 58, y := 0 },
    { timestamp := 59, x := 59, y := 0 }, { timestamp := 60, x := 60, y := 0 },
    { timestamp := 61, x := 61, y := 0 }, { timestamp := 62, x := 62, y := 0 },
    { timestamp := 63, x := 63, y := 0 }, { timestamp := 64, x := 64, y := 0 },
    { timestamp := 65, x := 65, y := 0 }, { timestamp := 66, x := 66, y := 0 },
    { timestamp := 67, x := 67, y := 0 },
    { timestamp := 10067, x := 10067, y := 0 } ]

/-- The i-th sample of a straight-line trace traversed at constant
velocity (vx, vy) with equal time gaps g, starting at time t0 and
position (x0, y0). -/
def linePt (t0 x0 y0 vx vy g : ℚ) (i : ℕ) : MovementPoint :=
  { timestamp := t0 + i * g, x := x0 + i * (g * vx), y := y0 + i * (g * vy) }

/-- The general 20-sample straight-line trace at constant velocity
(vx, vy) with equal non-zero time gaps g. -/
def mkLine (t0 x0 y0 vx vy g : ℚ) : List MovementPoint :=
  (List.range 20).map (linePt t0 x0 y0 vx vy g)

/-- A telemetry snapshot satisfying all amended scenario-A premises: the
mouse path rests for 146 samples and then jumps twice with one-second
gaps, giving acceleration variance well above 50, and three keystrokes
were typed. -/
def scenarioSpike : TelemetryData :=
  { keystrokeDynamics :=
      { flightTimes := [0, 1000, 2000], dwellTimes := []
        keys := ["a", "b", "c"] }
    mousePath := List.replicate 146 stillPoint ++ spikeTail
    entropyScore := 85
    sessionDuration := 8500
    timestamp := 0 }

end NeuroGate

namespace NeuroGate

/-- Stepwise rewriting of the sequential accumulation into the table-sum
form. -/
lemma riskAccum_eq_specTotal (t : TelemetryData) :
    riskAccum t = riskSpecTotal t := by
  simp only [riskAccum, riskSpecTotal, entropyAdj, flightAdj, dwellAdj,
    durationAdj, mouseAccelAdj, keyCountAdj, mouseCountAdj]
  generalize t.entropyScore = e
  generalize calculateVariance t.keystrokeDynamics.flightTimes = fv
  generalize calculateVariance t.keystrokeDynamics.dwellTimes = dv
  generalize calculateMouseAcceleration t.mousePath = acc
  generalize t.sessionDuration = dur
  generalize t.keystrokeDynamics.flightTimes.length = nf
  generalize t.keystrokeDynamics.dwellTimes.length = nd
  generalize t.keystrokeDynamics.keys.length = nk
  generalize t.mousePath.length = nm
  have h1 : ∀ s : ℚ,
      (if e < 40 then s - 35 else if e > 70 then s + 25 else s + 5) =
        s + (if e < 40 then -35 else if e > 70 then 25 else 5) := by
    intro s; split_ifs <;> ring
  have h2 : ∀ s : ℚ,
      (if nf > 2 then
        if fv < 100 then s - 30 else if fv > 1000 then s + 15 else s
      else s) =
        s + (if nf > 2 then
          if fv < 100 then -30 else if fv > 1000 then 15 else 0
        else 0) := by
    intro s; split_ifs <;> ring
  have h3 : ∀ s : ℚ,
      (if nd > 2 then if dv < 50 then s - 15 else s else s) =
        s + (if nd > 2 then if dv < 50 then -15 else 0 else 0) := by
    intro s; split_ifs <;> ring
  have h4 : ∀ s : ℚ,
      (if dur < 2000 then s - 20 else if dur > 300000 then s - 10 else s) =
        s + (if dur < 2000 then -20 else if dur > 300000 then -10 else 0) := by
    intro s; split_ifs <;> ring
  have h5 : ∀ s : ℚ,
      (if nm > 10 then
        if acc < 1 then s - 25 else if acc > 50 then s + 10 else s
      else s) =
        s + (if nm > 10 then
          if acc < 1 then -25 else if acc > 50 then 10 else 0
        else 0) := by
    intro s; split_ifs <;> ring
  have h6 : ∀ s : ℚ, (if nk < 3 then s - 15 else s) =
      s + (if nk < 3 then -15 else 0) := by
    intro s; split_ifs <;> ring
  have h7 : ∀ s : ℚ,
      (if nm < 5 then s - 10 else if nm > 100 then s + 5 else s) =
        s + (if nm < 5 then -10 else if nm > 100 then 5 else 0) := by
    intro s; split_ifs <;> ring
  rw [h1, h2, h3, h4, h5, h6, h7]

/-- C1: for every telemetry snapshot the trust score of `CalculateRisk`
equals the baseline of 50 plus the sum of exactly the applicable
adjustments of the fixed table (entropy, flight-time variance, dwell-time
variance, session duration, pointer acceleration variance, keystroke
count, pointer sample count), clamped to the interval 0-100. -/
theorem c1_risk_score_is_clamped_table_sum (t : TelemetryData) :
    CalculateRisk t = clampScore (riskSpecTotal t) := by
  unfold CalculateRisk
  rw [riskAccum_eq_specTotal]

/-- C2: the risk response returned by the verify operation satisfies
`requiresChallenge = (score < 70)`, with 70 the fixed threshold. -/
theorem c2_challenge_iff_score_below_threshold (el : EventLog)
    (req : VerifyRequest) (nowUnix nowNano : ℤ) (clientIP nowFormatted : String) :
    ((VerifyBehaviorHandler el req nowUnix nowNano clientIP nowFormatted).2.requiresChallenge
        = true) ↔
      (VerifyBehaviorHandler el req nowUnix nowNano clientIP nowFormatted).2.trustScore < 70 := by
  simp [VerifyBehaviorHandler, CHALLENGE_THRESHOLD]

/-- C10: the risk scorer is deterministic and stateless.  The risk
response of the verify operation is a function of the telemetry in the
request only: it does not depend on the accumulated event-log state, the
clock readings, or the client address, so two evaluations of the same
snapshot always return the same trust score and challenge flag. -/
theorem c10_scorer_deterministic_stateless (req : VerifyRequest)
    (el₁ el₂ : EventLog) (nowUnix₁ nowUnix₂ nowNano₁ nowNano₂ : ℤ)
    (ip₁ ip₂ fmt₁ fmt₂ : String) :
    (VerifyBehaviorHandler el₁ req nowUnix₁ nowNano₁ ip₁ fmt₁).2 =
      (VerifyBehaviorHandler el₂ req nowUnix₂ nowNano₂ ip₂ fmt₂).2 := rfl

/-- C5 counterexample: completing a challenge positively is a terminal
transition (`CHALLENGE → SUCCESS`), yet `SubmitChallengeHandler` leaves
the audit log untouched: starting from the empty log, after an accepted
challenge submission the log still holds zero events instead of exactly
one. -/
theorem c5_counterexample_challenge_completion_logs_nothing :
    (SubmitChallengeHandler (NewEventLog 50)
        { userId := "alice", success := true, timestamp := 0 }).2.status = "accepted" ∧
      (SubmitChallengeHandler (NewEventLog 50)
        { userId := "alice", success := true, timestamp := 0 }).1.events.length = 0 :=
  ⟨rfl, rfl⟩

/-- C5 amended: only the LOGIN evaluation emits a security event — exactly
one per verify call, with outcome `challenged` when the score is below 70
and `success` otherwise, carrying the trust score computed from the
telemetry; challenge completion emits no event at all (and no `blocked`
outcome is ever produced). -/
theorem c5_amended_only_login_evaluation_emits_one_event :
    (∀ (el : EventLog) (req : VerifyRequest) (nowUnix nowNano : ℤ)
        (clientIP nowFormatted : String),
      (VerifyBehaviorHandler el req nowUnix nowNano clientIP nowFormatted).1 =
        el.LogEvent
          { id := req.userId ++ "-" ++ toString nowNano
            timestamp := nowUnix
            userId := req.userId
            ip := clientIP
            trustScore := CalculateRisk req.telemetry
            status :=
              if CalculateRisk req.telemetry < 70 then "challenged" else "success"
            time := nowFormatted }) ∧
    (∀ (el : EventLog) (req : ChallengeRequest),
      (SubmitChallengeHandler el req).1 = el) := by
  constructor
  · intro el req nowUnix nowNano clientIP nowFormatted
    simp only [VerifyBehaviorHandler, CHALLENGE_THRESHOLD]
    split_ifs <;> simp_all
  · intro el req
    rfl

/-- C7 counterexample: an OTP consisting of four spaces has length at
least 4, yet the login gate trims it to the empty string and never
submits a challenge response, so this OTP does not lead to acceptance. -/
theorem c7_counterexample_whitespace_otp_never_submitted :
    ("    " : String).length = 4 ∧ handleChallengeSubmit "    " = none := by
  constructor
  · decide
  · decide

/-- C7 amended: challenge acceptance is determined entirely by the
client.  The challenge-submission operation returns status `accepted` if
and only if the client-supplied `success` flag is true (the server
validates no one-time code or physics verdict), and the login gate
submits `success = true` for every entered OTP of length at least 4 whose
trimmed form is non-empty, so every such OTP leads to acceptance. -/
theorem c7_amended_acceptance_client_controlled :
    (∀ (el : EventLog) (req : ChallengeRequest),
      ((SubmitChallengeHandler el req).2.status = "accepted" ↔ req.success = true)) ∧
    (∀ otp : String, 4 ≤ otp.length → trimEnds otp ≠ "" →
      handleChallengeSubmit otp = some true) := by
  constructor
  · intro el req
    cases h : req.success <;> simp [SubmitChallengeHandler, h]
  · intro otp h1 h2
    unfold handleChallengeSubmit
    rw [if_neg h2, if_neg (by omega : ¬ otp.length < 4)]

/-- C7 amended witness: an accepted submission with `success = true`, and
the OTP "1234" being submitted as `success = true`. -/
theorem c7_amended_witness :
    (SubmitChallengeHandler (NewEventLog 50)
        { userId := "carol", success := true, timestamp := 0 }).2.status = "accepted" ∧
      handleChallengeSubmit "1234" = some true :=
  ⟨(c7_amended_acceptance_client_controlled.1 (NewEventLog 50)
      { userId := "carol", success := true, timestamp := 0 }).mpr rfl,
    c7_amended_acceptance_client_controlled.2 "1234" (by decide) (by decide)⟩

/-! ### Audit-log lemmas for C6 -/

/-- One `LogEvent` call appends the event and drops the overflow from the
front (an overflow of at most one element per call). -/
lemma logEvent_events (el : EventLog) (e : SecurityEvent) :
    (el.LogEvent e).events =
      (el.events ++ [e]).drop (el.events.length + 1 - el.maxSize) := by
  simp only [EventLog.LogEvent]
  have hlen : (el.events ++ [e]).length = el.events.length + 1 := by simp
  rw [hlen]
  split_ifs with h
  · rfl
  · have h0 : el.events.length + 1 - el.maxSize = 0 := by omega
    rw [h0, List.drop_zero]

/-- `LogEvent` never changes the capacity. -/
lemma logEvent_maxSize (el : EventLog) (e : SecurityEvent) :
    (el.LogEvent e).maxSize = el.maxSize := rfl

/-- Folding `LogEvent` preserves the capacity. -/
lemma foldl_logEvent_maxSize :
    ∀ (es : List SecurityEvent) (el : EventLog),
      (es.foldl EventLog.LogEvent el).maxSize = el.maxSize := by
  intro es
  induction es with
  | nil => intro el; rfl
  | cons e es ih => intro el; rw [List.foldl_cons, ih, logEvent_maxSize]

/-- Folding `LogEvent` over a capacity-50 log keeps exactly the most
recent 50 of the inserted events (as a suffix of the insertion order). -/
lemma foldl_logEvent_events :
    ∀ (es : List SecurityEvent) (el : EventLog),
      el.maxSize = 50 → el.events.length ≤ 50 →
      (es.foldl EventLog.LogEvent el).events =
        (el.events ++ es).drop (el.events.length + es.length - 50) := by
  intro es
  induction es with
  | nil =>
    intro el hmax hlen
    simp only [List.foldl_nil, List.length_nil, List.append_nil]
    have h0 : el.events.length + 0 - 50 = 0 := by omega
    rw [h0, List.drop_zero]
  | cons e es ih =>
    intro el hmax hlen
    rw [List.foldl_cons]
    have hev := logEvent_events el e
    have hmax' : (el.LogEvent e).maxSize = 50 := by
      rw [logEvent_maxSize]; exact hmax
    have hlen' : (el.LogEvent e).events.length ≤ 50 := by
      rw [hev, List.length_drop]
      simp only [List.length_append, List.length_cons, List.length_nil]
      omega
    rw [ih (el.LogEvent e) hmax' hlen', hev, hmax]
    rw [List.length_drop]
    simp only [List.length_append, List.length_cons, List.length_nil]
    have hk : el.events.length + 1 - 50 ≤ (el.events ++ [e]).length := by
      simp only [List.length_append, List.length_cons, List.length_nil]
      omega
    rw [← List.drop_append_of_le_length hk, List.drop_drop,
      List.append_assoc, List.singleton_append]
    congr 1
    omega

/-- The replayed log holds the last 50 inserted events in insertion
order. -/
lemma replay_events (es : List SecurityEvent) :
    (replay es).events = es.drop (es.length - 50) := by
  unfold replay
  rw [foldl_logEvent_events es (NewEventLog 50) rfl (by simp [NewEventLog])]
  simp [NewEventLog]

/-- C6: after more than 50 `record` operations on the capacity-50 audit
log, `list()` returns exactly the 50 most recently inserted events, most
recent first; the stored event count never exceeds 50; and immediately
after `record(e)`, `list()` starts with `e`. -/
theorem c6_audit_log_bound_and_round_trip (es : List SecurityEvent)
    (e : SecurityEvent) :
    (es.length > 50 → (replay es).GetEvents = es.reverse.take 50) ∧
      (replay es).events.length ≤ 50 ∧
      ((replay es).LogEvent e).GetEvents.head? = some e := by
  refine ⟨fun h => ?_, ?_, ?_⟩
  · unfold EventLog.GetEvents
    rw [replay_events, List.reverse_drop]
    congr 1
    omega
  · rw [replay_events, List.length_drop]
    omega
  · unfold EventLog.GetEvents
    rw [List.head?_reverse, logEvent_events]
    have hmax : (replay es).maxSize = 50 :=
      foldl_logEvent_maxSize es (NewEventLog 50)
    rw [hmax]
    have hk : (replay es).events.length + 1 - 50 ≤
        (replay es).events.length := by omega
    rw [List.drop_append_of_le_length hk, List.getLast?_concat]

/-- C6 witness: the bound theorem applied to a concrete sequence of 51
insertions. -/
theorem c6_witness :
    manyEvents.length > 50 ∧
      (replay manyEvents).GetEvents = manyEvents.reverse.take 50 :=
  ⟨by decide, (c6_audit_log_bound_and_round_trip manyEvents (sampleEvent 0)).1
    (by decide)⟩

/-! ### Scenario A (C9) -/

/-- Exact evaluation of `Rat.sqrt` on a perfect rational square, where it
agrees with the real square root. -/
lemma ratSqrt_of_sq (a : ℚ) (ha : 0 ≤ a) {x : ℚ} (hx : x = a * a) :
    Rat.sqrt x = a := by
  rw [hx, Rat.sqrt_eq, abs_of_nonneg ha]

/-- A triple starting with two copies of the same sample has a zero first
time delta and is skipped. -/
lemma accelMagnitude_self_left (z q : MousePoint) :
    accelMagnitude z z q = none := by
  simp [accelMagnitude]

/-- Over a run of identical samples followed by a tail, only the last two
copies of the run can contribute acceleration magnitudes. -/
lemma accel_filterMap_replicate (z : MousePoint) (Q : List MousePoint) :
    ∀ k : ℕ,
      ((triples (List.replicate (k + 2) z ++ Q)).filterMap fun t =>
          accelMagnitude t.1 t.2.1 t.2.2) =
        (triples (List.replicate 2 z ++ Q)).filterMap fun t =>
          accelMagnitude t.1 t.2.1 t.2.2 := by
  intro k
  induction k with
  | zero => rfl
  | succ k ih =>
    have hsplit : List.replicate (k + 1 + 2) z ++ Q =
        z :: z :: z :: (List.replicate k z ++ Q) := by
      simp [List.replicate_succ]
    have hback : z :: z :: (List.replicate k z ++ Q) =
        List.replicate (k + 2) z ++ Q := by
      simp [List.replicate_succ]
    rw [hsplit, triples, List.filterMap_cons]
    simp only [accelMagnitude_self_left]
    rw [hback, ih]

/-- The perfectly still 150-sample path has acceleration variance 0. -/
lemma mouseAccel_still :
    calculateMouseAcceleration (List.replicate 150 stillPoint) = 0 := by
  unfold calculateMouseAcceleration
  rw [if_neg (by simp : ¬ (List.replicate 150 stillPoint).length < 3)]
  have h := accel_filterMap_replicate stillPoint [] 148
  simp only [List.append_nil] at h
  rw [show (150 : ℕ) = 148 + 2 from rfl, h]
  rfl

/-- The spike path has acceleration variance 20000/9. -/
lemma mouseAccel_spike :
    calculateMouseAcceleration (List.replicate 146 stillPoint ++ spikeTail) =
      20000 / 9 := by
  unfold calculateMouseAcceleration
  rw [if_neg (by simp [spikeTail] : ¬ (List.replicate 146 stillPoint ++ spikeTail).length < 3)]
  rw [show (146 : ℕ) = 144 + 2 from rfl, accel_filterMap_replicate stillPoint spikeTail 144]
  have h100 : Rat.sqrt 10000 = 100 := ratSqrt_of_sq 100 (by norm_num) (by norm_num)
  have h200 : Rat.sqrt 40000 = 200 := ratSqrt_of_sq 200 (by norm_num) (by norm_num)
  show calculateVariance
      ((triples (stillPoint :: stillPoint :: spikeTail)).filterMap fun t =>
        accelMagnitude t.1 t.2.1 t.2.2) = 20000 / 9
  norm_num [spikeTail, stillPoint, triples, accelMagnitude, List.filterMap_cons,
    h100, h200, calculateVariance]

/-- C9 counterexample: `scenarioStill` satisfies every premise of the
claim — entropy 85, flight-time variance above 1000 over at least 3
samples, session duration 8500 ms, 150 pointer samples — yet
`CalculateRisk` returns 55, not 100, and the verify operation does
require a challenge (no keystrokes and a motionless pointer pull the
score down). -/
theorem c9_counterexample_scenario_a_premises_do_not_force_100 :
    scenarioStill.entropyScore = 85 ∧
      scenarioStill.keystrokeDynamics.flightTimes.length ≥ 3 ∧
      calculateVariance scenarioStill.keystrokeDynamics.flightTimes > 1000 ∧
      scenarioStill.sessionDuration = 8500 ∧
      scenarioStill.mousePath.length = 150 ∧
      CalculateRisk scenarioStill = 55 ∧
      (VerifyBehaviorHandler (NewEventLog 50)
          { userId := "bob", telemetry := scenarioStill, timestamp := 0 }
          0 0 "127.0.0.1" "now").2.requiresChallenge = true := by
  have hlen : scenarioStill.mousePath.length = 150 := by
    simp [scenarioStill]
  have hacc : calculateMouseAcceleration scenarioStill.mousePath = 0 := by
    show calculateMouseAcceleration (List.replicate 150 stillPoint) = 0
    exact mouseAccel_still
  have hcr : CalculateRisk scenarioStill = 55 := by
    unfold CalculateRisk
    rw [riskAccum_eq_specTotal]
    have he : entropyAdj scenarioStill = 25 := by
      norm_num [entropyAdj, scenarioStill]
    have hf : flightAdj scenarioStill = 15 := by
      norm_num [flightAdj, scenarioStill, calculateVariance]
    have hd : dwellAdj scenarioStill = 0 := by
      norm_num [dwellAdj, scenarioStill]
    have hu : durationAdj scenarioStill = 0 := by
      norm_num [durationAdj, scenarioStill]
    have hm : mouseAccelAdj scenarioStill = -25 := by
      unfold mouseAccelAdj
      rw [hlen, hacc]
      norm_num
    have hk : keyCountAdj scenarioStill = -15 := by
      norm_num [keyCountAdj, scenarioStill]
    have hc : mouseCountAdj scenarioStill = 5 := by
      unfold mouseCountAdj
      rw [hlen]
      norm_num
    unfold riskSpecTotal
    rw [he, hf, hd, hu, hm, hk, hc]
    norm_num [clampScore]
  refine ⟨rfl, by norm_num [scenarioStill],
    by norm_num [scenarioStill, calculateVariance], rfl, hlen, hcr, ?_⟩
  simp only [VerifyBehaviorHandler, CHALLENGE_THRESHOLD]
  norm_num [hcr]

/-- C9 amended: a snapshot with entropy 85, high flight-time variance
(above 1000, at least 3 samples), session duration 8500 ms and 150
pointer samples scores 100 (the raw sum 105 clamps) and requires no
challenge, provided the factors the scenario leaves open are pinned away
from their penalty branches: at least 3 keystrokes, no low-variance dwell
signal, and pointer acceleration variance above 50. -/
theorem c9_amended_scenario_a (t : TelemetryData)
    (hent : t.entropyScore = 85)
    (hflen : t.keystrokeDynamics.flightTimes.length > 2)
    (hfvar : calculateVariance t.keystrokeDynamics.flightTimes > 1000)
    (hdur : t.sessionDuration = 8500)
    (hmp : t.mousePath.length = 150)
    (hacc : calculateMouseAcceleration t.mousePath > 50)
    (hkeys : t.keystrokeDynamics.keys.length ≥ 3)
    (hdwell : t.keystrokeDynamics.dwellTimes.length ≤ 2 ∨
      50 ≤ calculateVariance t.keystrokeDynamics.dwellTimes) :
    CalculateRisk t = 100 ∧
      ∀ (el : EventLog) (userId : String) (ts nowUnix nowNano : ℤ)
        (clientIP nowFormatted : String),
        (VerifyBehaviorHandler el
            { userId := userId, telemetry := t, timestamp := ts }
            nowUnix nowNano clientIP nowFormatted).2.requiresChallenge
          = false := by
  have he : entropyAdj t = 25 := by
    unfold entropyAdj
    rw [hent]
    norm_num
  have hf : flightAdj t = 15 := by
    unfold flightAdj
    rw [if_pos hflen,
      if_neg (by linarith :
        ¬ calculateVariance t.keystrokeDynamics.flightTimes < 100),
      if_pos hfvar]
  have hd : dwellAdj t = 0 := by
    unfold dwellAdj
    rcases hdwell with h | h
    · rw [if_neg (by omega : ¬ t.keystrokeDynamics.dwellTimes.length > 2)]
    · by_cases h2 : t.keystrokeDynamics.dwellTimes.length > 2
      · rw [if_pos h2,
          if_neg (by linarith :
            ¬ calculateVariance t.keystrokeDynamics.dwellTimes < 50)]
      · rw [if_neg h2]
  have hu : durationAdj t = 0 := by
    unfold durationAdj
    rw [hdur]
    norm_num
  have hm : mouseAccelAdj t = 10 := by
    unfold mouseAccelAdj
    rw [hmp]
    rw [if_pos (by norm_num : (150 : ℕ) > 10),
      if_neg (by linarith : ¬ calculateMouseAcceleration t.mousePath < 1),
      if_pos hacc]
  have hk : keyCountAdj t = 0 := by
    unfold keyCountAdj
    rw [if_neg (by omega : ¬ t.keystrokeDynamics.keys.length < 3)]
  have hc : mouseCountAdj t = 5 := by
    unfold mouseCountAdj
    rw [hmp]
    norm_num
  have hcr : CalculateRisk t = 100 := by
    unfold CalculateRisk
    rw [riskAccum_eq_specTotal]
    unfold riskSpecTotal
    rw [he, hf, hd, hu, hm, hk, hc]
    unfold clampScore
    norm_num
  refine ⟨hcr, ?_⟩
  intro el userId ts nowUnix nowNano clientIP nowFormatted
  simp only [VerifyBehaviorHandler, CHALLENGE_THRESHOLD]
  norm_num [hcr]

/-- The spike path satisfies the acceleration-variance premise. -/
lemma spike_accel_above_50 :
    calculateMouseAcceleration scenarioSpike.mousePath > 50 := by
  show calculateMouseAcceleration
    (List.replicate 146 stillPoint ++ spikeTail) > 50
  rw [mouseAccel_spike]
  norm_num

/-- C9 amended witness: the amended theorem applied to `scenarioSpike`,
whose acceleration variance indeed exceeds 50. -/
theorem c9_amended_witness :
    calculateMouseAcceleration scenarioSpike.mousePath > 50 ∧
      CalculateRisk scenarioSpike = 100 :=
  ⟨spike_accel_above_50,
    (c9_amended_scenario_a scenarioSpike rfl
        (by norm_num [scenarioSpike])
        (by norm_num [scenarioSpike, calculateVariance]) rfl
        (by norm_num [scenarioSpike, spikeTail])
        spike_accel_above_50
        (by norm_num [scenarioSpike])
        (Or.inl (by norm_num [scenarioSpike]))).1⟩

/-! ### Physics classifier: the five checks as table adjustments (C3, C4) -/

/-- Check 1 adjusts the running confidence by the first-gap table row. -/
lemma instantStep_fst (c : ℚ) (r : List String) (pts : List MovementPoint) :
    (instantStep c r pts).1 = c + instantAdj pts := by
  simp only [instantStep, instantAdj]
  split_ifs <;> ring

/-- Check 2 adjusts the running confidence by the velocity table row. -/
lemma velocityStep_fst (c : ℚ) (r : List String) (vels : List ℚ) :
    (velocityStep c r vels).1 = c + velocityAdj vels := by
  rcases h : vels.max? with _ | m <;>
    simp only [velocityStep, velocityAdj, h] <;> split_ifs <;> ring

/-- Check 3 adjusts the running confidence by the linearity table row. -/
lemma linearityStep_fst (c : ℚ) (r : List String) (pts : List MovementPoint) :
    (linearityStep c r pts).1 = c + linearityAdj pts := by
  simp only [linearityStep, linearityAdj]
  split_ifs <;> ring

/-- Check 4 adjusts the running confidence by the acceleration table
row. -/
lemma accelStep_fst (c : ℚ) (r : List String) (accels : List ℚ) :
    (accelStep c r accels).1 = c + accelAdj accels := by
  simp only [accelStep, accelAdj]
  split_ifs <;> ring

/-- Check 5 adjusts the running confidence by the direction-change table
row. -/
lemma directionStep_fst (c : ℚ) (r : List String) (pts : List MovementPoint) :
    (directionStep c r pts).1 = c + directionAdj pts := by
  simp only [directionStep, directionAdj]
  split_ifs <;> ring

/-- Clamping to the unit interval does not move a value across the 0.4
threshold. -/
lemma clamp_gt_04 (c : ℚ) : 0.4 < max 0 (min 1 c) ↔ 0.4 < c := by
  constructor
  · intro h
    rcases le_or_lt c 0.4 with hc | hc
    · have hle : max 0 (min 1 c) ≤ 0.4 :=
        max_le (by norm_num) (le_trans (min_le_right 1 c) hc)
      linarith
    · exact hc
  · intro h
    exact lt_of_lt_of_le (lt_min (by norm_num) h) (le_max_right 0 _)

/-- C3: on a trace with at least 15 samples, the classifier confidence
starts at 0.5, accumulates the five signed adjustments of the table
(first gap, maximum finite velocity, linearity, acceleration standard
deviation, direction changes) and is clamped to the unit interval, and
`isHuman` holds exactly when the returned confidence exceeds 0.4. -/
theorem c3_classifier_confidence_is_clamped_table_sum
    (points : List MovementPoint) (h : MIN_SAMPLES ≤ points.length) :
    (analyzePhysics points).confidence =
      max 0 (min 1 (0.5 + instantAdj points + velocityAdj (velocities points) +
        linearityAdj points +
        accelAdj (calculateAccelerations (velocities points)) +
        directionAdj points)) ∧
      ((analyzePhysics points).isHuman = true ↔
        0.4 < (analyzePhysics points).confidence) := by
  have hlt : ¬ points.length < MIN_SAMPLES := not_lt.mpr h
  unfold analyzePhysics
  rw [if_neg hlt]
  simp only [instantStep_fst, velocityStep_fst, linearityStep_fst,
    accelStep_fst, directionStep_fst]
  constructor
  · trivial
  · rw [decide_eq_true_eq, clamp_gt_04]

/-- C3 witness: the table-sum theorem applied to the concrete 20-sample
trace `lineTrace`. -/
theorem c3_witness :
    MIN_SAMPLES ≤ lineTrace.length ∧
      ((analyzePhysics lineTrace).isHuman = true ↔
        0.4 < (analyzePhysics lineTrace).confidence) :=
  ⟨by norm_num [lineTrace, MIN_SAMPLES],
    (c3_classifier_confidence_is_clamped_table_sum lineTrace
      (by norm_num [lineTrace, MIN_SAMPLES])).2⟩

/-- C4: on a trace with fewer than 15 samples the classifier
short-circuits: not human, zero confidence, a single insufficient-data
reason, and empty velocity and acceleration sequences — none of the five
checks runs. -/
theorem c4_insufficient_samples_fail_closed
    (points : List MovementPoint) (h : points.length < MIN_SAMPLES) :
    analyzePhysics points =
      { isHuman := false
        confidence := 0
        reasons := ["Insufficient movement samples: " ++
          toString points.length ++ "/" ++ toString MIN_SAMPLES]
        velocities := []
        accelerations := [] } := by
  unfold analyzePhysics
  rw [if_pos h]

/-- C4 witness: the short-circuit theorem applied to the empty trace. -/
theorem c4_witness :
    ([] : List MovementPoint).length < MIN_SAMPLES ∧
      analyzePhysics ([] : List MovementPoint) =
        { isHuman := false
          confidence := 0
          reasons := ["Insufficient movement samples: " ++
            toString ([] : List MovementPoint).length ++ "/" ++
            toString MIN_SAMPLES]
          velocities := []
          accelerations := [] } :=
  ⟨by decide, c4_insufficient_samples_fail_closed [] (by decide)⟩

/-! ### Structural list lemmas for the straight-line traces (C8) -/

/-- Consecutive pairs of an arithmetic index range, mapped. -/
lemma pairs_map_range' {α : Type} (f : ℕ → α) :
    ∀ (n s : ℕ), pairs ((List.range' s (n+1)).map f) =
      (List.range' s n).map fun i => (f i, f (i+1)) := by
  intro n
  induction n with
  | zero => intro s; rfl
  | succ n ih =>
    intro s
    have h1 : List.range' s (n+1+1) = s :: List.range' (s+1) (n+1) := by
      simp [List.range'_succ]
    have h2 : List.range' (s+1) (n+1) = (s+1) :: List.range' (s+2) n := by
      simp [List.range'_succ]
    rw [h1, List.map_cons, h2, List.map_cons, pairs]
    rw [← List.map_cons f (s+1), ← h2, ih (s+1)]
    rw [show List.range' s (n+1) = s :: List.range' (s+1) n by
      simp [List.range'_succ], List.map_cons]

/-- Consecutive triples of an arithmetic index range, mapped. -/
lemma triples_map_range' {α : Type} (f : ℕ → α) :
    ∀ (n s : ℕ), triples ((List.range' s (n+2)).map f) =
      (List.range' s n).map fun i => (f i, f (i+1), f (i+2)) := by
  intro n
  induction n with
  | zero => intro s; rfl
  | succ n ih =>
    intro s
    have h1 : List.range' s (n+1+2) = s :: List.range' (s+1) (n+2) := by
      simp [List.range'_succ]
    have h2 : List.range' (s+1) (n+2) = (s+1) :: List.range' (s+2) (n+1) := by
      simp [List.range'_succ]
    have h3 : List.range' (s+2) (n+1) = (s+2) :: List.range' (s+3) n := by
      simp [List.range'_succ]
    rw [h1, List.map_cons, h2, List.map_cons, h3, List.map_cons, triples]
    rw [← List.map_cons f (s+2), ← h3, ← List.map_cons f (s+1), ← h2, ih (s+1)]
    rw [show List.range' s (n+1) = s :: List.range' (s+1) n by
      simp [List.range'_succ], List.map_cons]

/-- Consecutive pairs of a constant list are constant. -/
lemma pairs_replicate {α : Type} (a : α) :
    ∀ n : ℕ, pairs (List.replicate (n+1) a) = List.replicate n (a, a) := by
  intro n
  induction n with
  | zero => rfl
  | succ n ih =>
    have h : List.replicate (n+1+1) a = a :: a :: List.replicate n a := by
      simp [List.replicate_succ]
    rw [h, show pairs (a :: a :: List.replicate n a) =
      (a, a) :: pairs (a :: List.replicate n a) from rfl,
      ← List.replicate_succ, ih, List.replicate_succ]

/-- The maximum of a non-empty constant list. -/
lemma max?_replicate (a : ℚ) (n : ℕ) :
    (List.replicate (n+1) a).max? = some a := by
  rw [List.replicate_succ]
  show some ((List.replicate n a).foldl max a) = some a
  congr 1
  induction n with
  | zero => rfl
  | succ n ih => rw [List.replicate_succ, List.foldl_cons, max_self]; exact ih

/-- Counting a predicate that is constant on a list. -/
lemma countP_of_const {α : Type} (p : α → Bool) (b : Bool) :
    ∀ l : List α, (∀ x ∈ l, p x = b) →
      l.countP p = if b then l.length else 0 := by
  intro l
  induction l with
  | nil => intro h; cases b <;> rfl
  | cons a l ih =>
    intro h
    rw [List.countP_cons, ih (fun x hx => h x (List.mem_cons_of_mem a hx)),
      h a (List.mem_cons_self a l)]
    cases b <;> simp [List.length_cons]

/-- Folding over a list of zeros with a function that fixes zero. -/
lemma foldl_replicate_zero_fixed (f : ℚ → ℚ → ℚ) (hf : ∀ s, f s 0 = s) :
    ∀ (n : ℕ) (init : ℚ), (List.replicate n (0:ℚ)).foldl f init = init := by
  intro n
  induction n with
  | zero => intro init; rfl
  | succ n ih =>
    intro init
    rw [List.replicate_succ, List.foldl_cons, hf]
    exact ih init

/-! ### Evaluation of the classifier on uniform straight-line traces -/

/-- Every step of a uniform-gap constant-velocity trace has the same
finite velocity. -/
lemma calcVel_line (t0 x0 y0 vx vy g : ℚ) (hg : g ≠ 0) (i : ℕ) :
    calculateVelocity? (linePt t0 x0 y0 vx vy g i)
        (linePt t0 x0 y0 vx vy g (i+1)) =
      some (Rat.sqrt ((g * vx) * (g * vx) + (g * vy) * (g * vy)) / g) := by
  simp only [calculateVelocity?, distance, linePt]
  push_cast
  rw [show t0 + ((i:ℚ)+1) * g - (t0 + (i:ℚ) * g) = g by ring,
    show x0 + ((i:ℚ)+1) * (g * vx) - (x0 + (i:ℚ) * (g * vx)) = g * vx by ring,
    show y0 + ((i:ℚ)+1) * (g * vy) - (y0 + (i:ℚ) * (g * vy)) = g * vy by ring,
    if_neg hg]

/-- The velocity sequence of a uniform straight-line trace is constant. -/
lemma velocities_mkLine (t0 x0 y0 vx vy g : ℚ) (hg : g ≠ 0) :
    velocities (mkLine t0 x0 y0 vx vy g) =
      List.replicate 19
        (Rat.sqrt ((g * vx) * (g * vx) + (g * vy) * (g * vy)) / g) := by
  unfold velocities mkLine
  rw [List.range_eq_range', show (20:ℕ) = 19 + 1 from rfl,
    pairs_map_range' (linePt t0 x0 y0 vx vy g) 19 0,
    List.filterMap_map]
  show List.filterMap
      (fun i => calculateVelocity? (linePt t0 x0 y0 vx vy g i)
        (linePt t0 x0 y0 vx vy g (i + 1))) (List.range' 0 19) = _
  rw [List.filterMap_congr (fun i _ => calcVel_line t0 x0 y0 vx vy g hg i)]
  show List.filterMap
      (some ∘ fun _ =>
        Rat.sqrt ((g * vx) * (g * vx) + (g * vy) * (g * vy)) / g)
      (List.range' 0 19) = _
  rw [List.filterMap_eq_map, List.map_const']
  simp

/-- Constant velocities have identically-zero accelerations. -/
lemma accel_of_const_velocities (V : ℚ) :
    calculateAccelerations (List.replicate 19 V) = List.replicate 18 0 := by
  unfold calculateAccelerations
  rw [show (19:ℕ) = 18 + 1 from rfl, pairs_replicate V 18, List.map_replicate]
  simp

set_option maxHeartbeats 1000000 in
/-- A uniform-gap straight-line trace is perfectly linear. -/
lemma measureLinearity_mkLine (t0 x0 y0 vx vy g : ℚ) :
    measureLinearity (mkLine t0 x0 y0 vx vy g) = 1 := by
  unfold measureLinearity mkLine linePt
  rw [show List.range 20 =
    [0,1,2,3,4,5,6,7,8,9,10,11,12,13,14,15,16,17,18,19] from rfl]
  simp only [List.map_cons, List.map_nil, List.enum, List.enumFrom,
    List.length_cons, List.length_nil, List.foldl_cons, List.foldl_nil,
    List.getLastD, List.headD, List.getLast]
  norm_num
  intro h
  ring_nf
  norm_num

/-- The direction-change test is the same on every interior sample of a
uniform straight-line trace. -/
lemma directionChanged_line (t0 x0 y0 vx vy g : ℚ) (i : ℕ) :
    directionChanged (linePt t0 x0 y0 vx vy g i,
        linePt t0 x0 y0 vx vy g (i+1), linePt t0 x0 y0 vx vy g (i+2)) =
      decide (Rat.sqrt ((g * vx) * (g * vx) + (g * vy) * (g * vy)) > 0 ∧
        Rat.sqrt ((g * vx) * (g * vx) + (g * vy) * (g * vy)) > 0 ∧
        ((g * vx) * (g * vx) + (g * vy) * (g * vy)) /
          (Rat.sqrt ((g * vx) * (g * vx) + (g * vy) * (g * vy)) *
            Rat.sqrt ((g * vx) * (g * vx) + (g * vy) * (g * vy))) < 0.95) := by
  simp only [directionChanged, linePt]
  push_cast
  rw [show x0 + ((i:ℚ)+1) * (g * vx) - (x0 + (i:ℚ) * (g * vx)) = g * vx by ring,
    show y0 + ((i:ℚ)+1) * (g * vy) - (y0 + (i:ℚ) * (g * vy)) = g * vy by ring,
    show x0 + ((i:ℚ)+2) * (g * vx) - (x0 + ((i:ℚ)+1) * (g * vx)) = g * vx by ring,
    show y0 + ((i:ℚ)+2) * (g * vy) - (y0 + ((i:ℚ)+1) * (g * vy)) = g * vy by ring]

/-- The direction-change count of a uniform straight-line trace is all
or nothing. -/
lemma directionChanges_mkLine (t0 x0 y0 vx vy g : ℚ) :
    (triples (mkLine t0 x0 y0 vx vy g)).countP directionChanged =
      if decide (Rat.sqrt ((g * vx) * (g * vx) + (g * vy) * (g * vy)) > 0 ∧
          Rat.sqrt ((g * vx) * (g * vx) + (g * vy) * (g * vy)) > 0 ∧
          ((g * vx) * (g * vx) + (g * vy) * (g * vy)) /
            (Rat.sqrt ((g * vx) * (g * vx) + (g * vy) * (g * vy)) *
              Rat.sqrt ((g * vx) * (g * vx) + (g * vy) * (g * vy))) < 0.95)
        then 18 else 0 := by
  unfold mkLine
  rw [List.range_eq_range', show (20:ℕ) = 18 + 2 from rfl,
    triples_map_range' (linePt t0 x0 y0 vx vy g) 18 0,
    List.countP_map]
  show List.countP
      (fun i => directionChanged (linePt t0 x0 y0 vx vy g i,
        linePt t0 x0 y0 vx vy g (i + 1), linePt t0 x0 y0 vx vy g (i + 2)))
      (List.range' 0 18) = _
  rw [countP_of_const _ _ _ (fun i _ => directionChanged_line t0 x0 y0 vx vy g i)]
  simp

/-- The first-gap adjustment of a uniform straight-line trace. -/
lemma instantAdj_mkLine (t0 x0 y0 vx vy g : ℚ) (hg : g ≠ 0) :
    instantAdj (mkLine t0 x0 y0 vx vy g) =
      if g < MIN_MOVEMENT_TIME then -0.2 else 0.1 := by
  unfold instantAdj mkLine linePt
  rw [show List.range 20 =
    [0,1,2,3,4,5,6,7,8,9,10,11,12,13,14,15,16,17,18,19] from rfl]
  simp only [List.map_cons, List.map_nil, List.getD_cons_zero,
    List.getD_cons_succ]
  push_cast
  rw [show t0 + 1 * g - (t0 + 0 * g) = g by ring, if_neg hg]

/-- The velocity adjustment of a constant velocity sequence. -/
lemma velocityAdj_replicate (V : ℚ) :
    velocityAdj (List.replicate 19 V) =
      if V > VELOCITY_THRESHOLD then -0.25 else 0.1 := by
  unfold velocityAdj
  rw [show (19:ℕ) = 18 + 1 from rfl, max?_replicate]

/-- The acceleration adjustment of identically-zero accelerations. -/
lemma accelAdj_replicate_zero :
    accelAdj (List.replicate 18 (0:ℚ)) = -0.15 := by
  simp only [accelAdj, List.length_replicate]
  rw [if_pos (by norm_num : (18:ℕ) > 0)]
  rw [foldl_replicate_zero_fixed (· + ·) (fun s => by ring) 18 0, zero_div]
  rw [foldl_replicate_zero_fixed (fun s a => s + (a - 0) * (a - 0))
    (fun s => by ring) 18 0, zero_div]
  rw [ratSqrt_of_sq 0 le_rfl (by norm_num)]
  norm_num

/-- The linearity adjustment of a uniform straight-line trace is the
full penalty. -/
lemma linearityAdj_mkLine (t0 x0 y0 vx vy g : ℚ) :
    linearityAdj (mkLine t0 x0 y0 vx vy g) = -0.3 := by
  unfold linearityAdj
  rw [measureLinearity_mkLine]
  rw [if_pos (by norm_num [LINEARITY_THRESHOLD] : (1:ℚ) > LINEARITY_THRESHOLD)]

/-- The direction-change adjustment of a uniform straight-line trace is
either absent or the full bonus. -/
lemma directionAdj_mkLine (t0 x0 y0 vx vy g : ℚ) :
    directionAdj (mkLine t0 x0 y0 vx vy g) = 0 ∨
      directionAdj (mkLine t0 x0 y0 vx vy g) = 0.15 := by
  unfold directionAdj
  rw [directionChanges_mkLine]
  split_ifs with h1 h2 h3
  · right; rfl
  · exfalso
    rw [show (mkLine t0 x0 y0 vx vy g).length = 20 by simp [mkLine]] at h2
    norm_num at h2
  · exfalso
    rw [show (mkLine t0 x0 y0 vx vy g).length = 20 by simp [mkLine]] at h3
    norm_num at h3
  · left; rfl

/-- C8 amended: every 20-sample trace along a perfect straight line
traversed at constant velocity with equal non-zero inter-sample time
gaps has linearity 1 (above 0.95) and zero acceleration deviation, and
the classifier returns confidence at most 0.4 and isHuman = false. -/
theorem c8_amended_uniform_straight_line_rejected
    (t0 x0 y0 vx vy g : ℚ) (hg : g ≠ 0) :
    measureLinearity (mkLine t0 x0 y0 vx vy g) = 1 ∧
      (analyzePhysics (mkLine t0 x0 y0 vx vy g)).confidence ≤ 0.4 ∧
      (analyzePhysics (mkLine t0 x0 y0 vx vy g)).isHuman = false := by
  have hlt : ¬ (mkLine t0 x0 y0 vx vy g).length < MIN_SAMPLES := by
    rw [show (mkLine t0 x0 y0 vx vy g).length = 20 by simp [mkLine]]
    norm_num [MIN_SAMPLES]
  have hvel := velocities_mkLine t0 x0 y0 vx vy g hg
  have ha1 : instantAdj (mkLine t0 x0 y0 vx vy g) ≤ 0.1 := by
    rw [instantAdj_mkLine t0 x0 y0 vx vy g hg]
    split_ifs <;> norm_num
  have ha2 : velocityAdj (velocities (mkLine t0 x0 y0 vx vy g)) ≤ 0.1 := by
    rw [hvel, velocityAdj_replicate]
    split_ifs <;> norm_num
  have ha3 := linearityAdj_mkLine t0 x0 y0 vx vy g
  have ha4 : accelAdj
      (calculateAccelerations (velocities (mkLine t0 x0 y0 vx vy g))) =
      -0.15 := by
    rw [hvel, accel_of_const_velocities, accelAdj_replicate_zero]
  have ha5 : directionAdj (mkLine t0 x0 y0 vx vy g) ≤ 0.15 := by
    rcases directionAdj_mkLine t0 x0 y0 vx vy g with h | h <;> rw [h] <;>
      norm_num
  have hsum : 0.5 + instantAdj (mkLine t0 x0 y0 vx vy g) +
      velocityAdj (velocities (mkLine t0 x0 y0 vx vy g)) +
      linearityAdj (mkLine t0 x0 y0 vx vy g) +
      accelAdj (calculateAccelerations (velocities (mkLine t0 x0 y0 vx vy g))) +
      directionAdj (mkLine t0 x0 y0 vx vy g) ≤ 0.4 := by
    rw [ha3, ha4]
    linarith
  refine ⟨measureLinearity_mkLine t0 x0 y0 vx vy g, ?_, ?_⟩
  · unfold analyzePhysics
    rw [if_neg hlt]
    simp only [instantStep_fst, velocityStep_fst, linearityStep_fst,
      accelStep_fst, directionStep_fst]
    exact max_le (by norm_num) (le_trans (min_le_right 1 _) hsum)
  · unfold analyzePhysics
    rw [if_neg hlt]
    simp only [instantStep_fst, velocityStep_fst, linearityStep_fst,
      accelStep_fst, directionStep_fst]
    exact decide_eq_false (not_lt.mpr hsum)

/-- C8 amended witness: a concrete uniform straight line (gap 100 ms,
velocity (1, 0)) is classified as non-human. -/
theorem c8_amended_witness :
    (100:ℚ) ≠ 0 ∧
      (analyzePhysics (mkLine 0 0 0 1 0 100)).isHuman = false :=
  ⟨by norm_num,
    (c8_amended_uniform_straight_line_rejected 0 0 0 1 0 100 (by norm_num)).2.2⟩

set_option maxHeartbeats 2000000 in
/-- C8 counterexample: `lineTrace` has 20 samples on a perfect straight
line traversed at constant velocity (1, 0) with non-zero (but unequal)
inter-sample gaps, yet the classifier returns isHuman = true: the
index-based linearity fit drops to 0 on unequal gaps, turning the
linearity penalty into a bonus. -/
theorem c8_counterexample_line_with_unequal_gaps_classified_human :
    lineTrace.length = 20 ∧
      List.Chain' (fun p q : MovementPoint =>
        q.timestamp - p.timestamp ≠ 0 ∧
        q.x - p.x = 1 * (q.timestamp - p.timestamp) ∧
        q.y - p.y = 0 * (q.timestamp - p.timestamp)) lineTrace ∧
      (analyzePhysics lineTrace).isHuman = true := by
  have s1 : Rat.sqrt 1 = 1 := ratSqrt_of_sq 1 (by norm_num) (by norm_num)
  have s2500 : Rat.sqrt 2500 = 50 := ratSqrt_of_sq 50 (by norm_num) (by norm_num)
  have s1e8 : Rat.sqrt 100000000 = 10000 :=
    ratSqrt_of_sq 10000 (by norm_num) (by norm_num)
  have hlt : ¬ lineTrace.length < MIN_SAMPLES := by
    norm_num [lineTrace, MIN_SAMPLES]
  have hvel : velocities lineTrace = List.replicate 19 1 := by
    rw [show List.replicate 19 (1:ℚ) =
      [1,1,1,1,1,1,1,1,1,1,1,1,1,1,1,1,1,1,1] from rfl]
    norm_num [velocities, lineTrace, pairs, calculateVelocity?, distance,
      List.filterMap_cons, List.filterMap_nil, s2500, s1, s1e8]
  have ha1 : instantAdj lineTrace = 0.1 := by
    norm_num [instantAdj, lineTrace, MIN_MOVEMENT_TIME]
  have ha2 : velocityAdj (velocities lineTrace) = 0.1 := by
    rw [hvel, velocityAdj_replicate]
    norm_num [VELOCITY_THRESHOLD]
  have hlin : measureLinearity lineTrace = 0 := by
    norm_num [measureLinearity, lineTrace, List.enum, List.enumFrom]
  have ha3 : linearityAdj lineTrace = 0.2 := by
    unfold linearityAdj
    rw [hlin]
    norm_num [LINEARITY_THRESHOLD]
  have ha4 : accelAdj (calculateAccelerations (velocities lineTrace)) =
      -0.15 := by
    rw [hvel, accel_of_const_velocities, accelAdj_replicate_zero]
  have hcount : (triples lineTrace).countP directionChanged = 0 := by
    rw [List.countP_eq_zero]
    intro t ht
    fin_cases ht <;>
      norm_num [directionChanged, s2500, s1, s1e8]
  have ha5 : directionAdj lineTrace = 0 := by
    unfold directionAdj
    rw [hcount]
    norm_num
  refine ⟨by norm_num [lineTrace], ?_, ?_⟩
  · norm_num [lineTrace, List.chain'_cons, List.chain'_singleton]
  · unfold analyzePhysics
    rw [if_neg hlt]
    simp only [instantStep_fst, velocityStep_fst, linearityStep_fst,
      accelStep_fst, directionStep_fst]
    rw [ha1, ha2, ha3, ha4, ha5]
    norm_num

end NeuroGate
